import Mathlib

/-!
# Falcon porous-flow extension objects

A shallow embedding of `PorousFlowSquarePulsePointEnthalpySink` (the point
"Dirac" kernel of `src/dirackernels/PorousFlowSquarePulsePointEnthalpySink.C`)
and of the two scalar diagnostics `PorousFlowDoubletBreakthroughTime` and
`PorousFlowSteadyStateTerminator`.

The C++ type `Real` is embedded twice.  The definitions over an arbitrary
linearly ordered field `K` read the arithmetic of the source as exact real
arithmetic; concrete evaluations of them are carried out over `ℚ`.  The
definitions named `...Binary64` read it as IEEE binary64 arithmetic (round to
nearest, ties to even), on finite values.  Every definition is computable.
Arrays indexed by quadrature point or shape function are total functions of
the index.
-/

namespace Falcon

/-! ## Data model -/

/-- A `Point`: the x, y, z coordinates of the Dirac source. -/
structure Point (K : Type) where
  x : K
  y : K
  z : K

/-- The two overloads of `SinglePhaseFluidProperties::h_from_p_T` used by the
kernel: the value overload, and the overload that also writes the partial
derivatives `(h, dh_dp, dh_dT)`. -/
structure SinglePhaseFluidProperties (K : Type) where
  h_from_p_T : K → K → K
  h_from_p_T_derivs : K → K → K × K × K

/-- The `InputParameters` block read by the constructor.  `start_time` and
`end_time` are optional in `validParams` (`addParam` with a default), the
other entries are required. -/
structure InputParameters (K : Type) where
  name : String
  mass_flux : K
  fp : SinglePhaseFluidProperties K
  pressure : Nat
  point : Point K
  start_time : Option K
  end_time : Option K

/-- Default of `start_time` declared in `validParams` (`0.0`). -/
def default_start_time {K : Type} [LinearOrderedField K] : K := 0

/-- Default of `end_time` declared in `validParams` (`1.0e30`). -/
def default_end_time {K : Type} [LinearOrderedField K] : K := 10 ^ 30

/-- The members of `PorousFlowSquarePulsePointEnthalpySink` fixed at
construction. -/
structure PorousFlowSquarePulsePointEnthalpySink (K : Type) where
  _mass_flux : K
  _fp : SinglePhaseFluidProperties K
  _p : Point K
  _start_time : K
  _end_time : K
  _p_var_num : Nat

/-- The payload of the `mooseError` raised by the constructor: the object name
and the two bounds that the message prints. -/
structure MooseError (K : Type) where
  name : String
  start_time : K
  end_time : K

/-- The state the framework supplies at each evaluation: current time `_t`,
step size `_dt`, the indices `_i`, `_j`, `_qp`, the test and shape function
tables and the coupled pressure and temperature at the quadrature points. -/
structure QpContext (K : Type) where
  _t : K
  _dt : K
  _i : Nat
  _j : Nat
  _qp : Nat
  _test : Nat → Nat → K
  _phi : Nat → Nat → K
  _pressure : Nat → K
  _temperature : Nat → K

/-! ## Operations of the kernel -/

section Kernel

variable {K : Type} [LinearOrderedField K]

/-- The constructor: reads the parameters (with the `validParams` defaults)
and raises `mooseError` when `_end_time <= _start_time`. -/
def construct (parameters : InputParameters K) :
    Except (MooseError K) (PorousFlowSquarePulsePointEnthalpySink K) :=
  let _start_time := parameters.start_time.getD default_start_time
  let _end_time := parameters.end_time.getD default_end_time
  if _end_time ≤ _start_time then
    Except.error ⟨parameters.name, _start_time, _end_time⟩
  else
    Except.ok
      { _mass_flux := parameters.mass_flux
        _fp := parameters.fp
        _p := parameters.point
        _start_time := _start_time
        _end_time := _end_time
        _p_var_num := parameters.pressure }

/-- The local `factor` of `computeQpResidual` (lines 68-90), in exact
arithmetic: the six cases for the window `(_start_time, _end_time)` against
`(_t - _dt, _t)`. -/
def residualFactor (_t _dt _start_time _end_time : K) : K :=
  if _t < _start_time ∨ _t - _dt ≥ _end_time then 0
  else if _t - _dt < _start_time then
    if _t ≤ _end_time then (_t - _start_time) / _dt
    else (_end_time - _start_time) / _dt
  else
    if _t ≤ _end_time then 1
    else (_end_time - (_t - _dt)) / _dt

/-- The local `factor` of `computeQpOffDiagJacobian` (lines 105-128), in
exact arithmetic: a second copy of the six cases in the source. -/
def offDiagFactor (_t _dt _start_time _end_time : K) : K :=
  if _t < _start_time ∨ _t - _dt ≥ _end_time then 0
  else if _t - _dt < _start_time then
    if _t ≤ _end_time then (_t - _start_time) / _dt
    else (_end_time - _start_time) / _dt
  else
    if _t ≤ _end_time then 1
    else (_end_time - (_t - _dt)) / _dt

/-- The method `computeQpResidual`. -/
def computeQpResidual (k : PorousFlowSquarePulsePointEnthalpySink K) (c : QpContext K) : K :=
  let factor := residualFactor c._t c._dt k._start_time k._end_time
  let h := k._fp.h_from_p_T (c._pressure c._qp) (c._temperature c._qp)
  c._test c._i c._qp * factor * k._mass_flux * h

/-- The method `computeQpJacobian`. -/
def computeQpJacobian (_k : PorousFlowSquarePulsePointEnthalpySink K) (_c : QpContext K) : K :=
  0

/-- The method `computeQpOffDiagJacobian`. -/
def computeQpOffDiagJacobian (k : PorousFlowSquarePulsePointEnthalpySink K) (c : QpContext K)
    (jvar : Nat) : K :=
  let factor := offDiagFactor c._t c._dt k._start_time k._end_time
  if jvar = k._p_var_num then
    let dh_dp := (k._fp.h_from_p_T_derivs (c._pressure c._qp) (c._temperature c._qp)).2.1
    c._test c._i c._qp * c._phi c._j c._qp * factor * k._mass_flux * dh_dp
  else
    0

/-- The quantity `factor * dt` summed over consecutive steps: the step sizes
`dts` are taken one after the other from time `t0`, so that the i-th step
ends at `t0 + dt_1 + ... + dt_i`, and each step contributes the `factor` of
`computeQpResidual` at its end time multiplied by its size. -/
def totalFactorTime (_start_time _end_time : K) : K → List K → K
  | _, [] => 0
  | t0, dt :: dts =>
      residualFactor (t0 + dt) dt _start_time _end_time * dt
        + totalFactorTime _start_time _end_time (t0 + dt) dts

/-- The position of time `x` clamped into the window: a helper of the proofs,
`factor * dt` of a step is the difference of this quantity over the step. -/
def clampWindow (_start_time _end_time x : K) : K :=
  min (max x _start_time) _end_time

end Kernel

/-! ## Binary64 arithmetic

A finite `double` is an integer multiple of `2 ^ (-1074)` of magnitude below
`2 ^ 1024`; it is represented by that integer multiple, an `Int` of magnitude
below `2 ^ 2098`.  Comparisons of doubles are comparisons of these integers.
An operation whose rounded result is not finite (overflow, division by zero)
yields `none`; the sign of zero is not represented. -/

/-- The number of binary digits of `n`, for `n < 2 ^ 2 ^ k`, by bisection. -/
def Binary64.bitLengthAux : Nat → Nat → Nat
  | 0, n => if n = 0 then 0 else 1
  | k + 1, n =>
      if n < 2 ^ 2 ^ k then Binary64.bitLengthAux k n
      else 2 ^ k + Binary64.bitLengthAux k (n / 2 ^ 2 ^ k)

/-- The number of binary digits of `n`, for `n < 2 ^ 4096`. -/
def Binary64.bitLength (n : Nat) : Nat :=
  Binary64.bitLengthAux 12 n

/-- The integer nearest to `a / d`, ties to the even one. -/
def Binary64.roundToEven (a d : Nat) : Nat :=
  let q := a / d
  let r := a % d
  if 2 * r < d then q else if d < 2 * r then q + 1 else if q % 2 = 0 then q else q + 1

/-- The multiple of `2 ^ (-1074)` with at most 53 significant binary digits
nearest to `a / b` multiples, ties to even: `s` is the number of digits of
the integer part in excess of 53. -/
def Binary64.roundMagnitude (a b : Nat) : Nat :=
  let s := Binary64.bitLength (a / b) - 53
  Binary64.roundToEven a (b * 2 ^ s) * 2 ^ s

/-- The double nearest to `p / q` multiples of `2 ^ (-1074)`; `none` when the
rounded magnitude reaches `2 ^ 1024`. -/
def Binary64.round (p : Int) (q : Nat) : Option Int :=
  let n := Binary64.roundMagnitude p.natAbs q
  if n < 2 ^ 2098 then some (if p < 0 then -(n : Int) else (n : Int)) else none

/-- The double `2 ^ e`, for `-1074 ≤ e ≤ 1023`. -/
def Binary64.pow2 (e : Int) : Int :=
  ((2 ^ (e + 1074).toNat : Nat) : Int)

/-- The real number a double stands for. -/
def Binary64.toRat (x : Int) : ℚ :=
  (x : ℚ) / 2 ^ 1074

/-- Whether an integer multiple of `2 ^ (-1074)` is a finite double. -/
def Binary64.isFinite (x : Int) : Bool :=
  Binary64.round x 1 == some x

/-- The sum `x + y` of doubles, rounded. -/
def Binary64.add (x y : Int) : Option Int :=
  Binary64.round (x + y) 1

/-- The difference `x - y` of doubles, rounded. -/
def Binary64.sub (x y : Int) : Option Int :=
  Binary64.round (x - y) 1

/-- The product `x * y` of doubles, rounded. -/
def Binary64.mul (x y : Int) : Option Int :=
  Binary64.round (x * y) (2 ^ 1074)

/-- The quotient `x / y` of doubles, rounded. -/
def Binary64.div (x y : Int) : Option Int :=
  if y = 0 then none
  else Binary64.round (if y < 0 then -(x * 2 ^ 1074) else x * 2 ^ 1074) y.natAbs

/-- The local `factor` of `computeQpResidual` (lines 68-90), in binary64
arithmetic: every `-` and `/` of the source rounds its result.  The
right-hand side of `||` is evaluated only when the left-hand side is false,
and `_t - _dt` has the same value at each of its occurrences. -/
def residualFactorBinary64 (_t _dt _start_time _end_time : Int) : Option Int :=
  if _t < _start_time then some 0
  else
    match Binary64.sub _t _dt with
    | none => none
    | some d =>
      if d ≥ _end_time then some 0
      else if d < _start_time then
        if _t ≤ _end_time then
          (Binary64.sub _t _start_time).bind fun n => Binary64.div n _dt
        else
          (Binary64.sub _end_time _start_time).bind fun n => Binary64.div n _dt
      else
        if _t ≤ _end_time then some (Binary64.pow2 0)
        else (Binary64.sub _end_time d).bind fun n => Binary64.div n _dt

/-- The quantity `factor * dt` summed over consecutive steps in binary64
arithmetic: the time of a step is the rounded sum of the previous time and
the step size, and the products and the sum are rounded. -/
def totalFactorTimeBinary64 (_start_time _end_time : Int) : Int → List Int → Option Int
  | _, [] => some 0
  | t0, dt :: dts =>
      (Binary64.add t0 dt).bind fun t =>
      (residualFactorBinary64 t dt _start_time _end_time).bind fun f =>
      (Binary64.mul f dt).bind fun m =>
      (totalFactorTimeBinary64 _start_time _end_time t dts).bind fun rest =>
      Binary64.add m rest

/-- The times reached by consecutive steps in binary64 arithmetic, the
starting time included. -/
def stepTimesBinary64 : Int → List Int → Option (List Int)
  | t0, [] => some [t0]
  | t0, dt :: dts =>
      (Binary64.add t0 dt).bind fun t => (stepTimesBinary64 t dts).map fun ts => t0 :: ts

/-! ## Breakthrough-time latch -/

/-- Modelled from the spec: `PorousFlowDoubletBreakthroughTime.C` is missing
(only the header is available, which declares the upstream readings
`_pps_value`, `_pps_time` and one `Real` member).  The record follows the
data model "BreakthroughLatch: threshold_constant, latched_value" together
with the latched mark of the contract. -/
structure PorousFlowDoubletBreakthroughTime (K : Type) where
  threshold_constant : K
  latched_value : K
  latched : Bool

/-- Modelled from the spec: the construction of the missing
`PorousFlowDoubletBreakthroughTime.C`; before ever latching the exposed value
is a sentinel, which the spec leaves open and is a parameter here. -/
def PorousFlowDoubletBreakthroughTime.construct {K : Type} (threshold_constant sentinel : K) :
    PorousFlowDoubletBreakthroughTime K :=
  { threshold_constant := threshold_constant, latched_value := sentinel, latched := false }

/-- Modelled from the spec: the per-step reset of the missing
`PorousFlowDoubletBreakthroughTime.C`; the latch has no per-step transient
state, so nothing changes. -/
def PorousFlowDoubletBreakthroughTime.init_step {K : Type}
    (s : PorousFlowDoubletBreakthroughTime K) : PorousFlowDoubletBreakthroughTime K :=
  s

/-- Modelled from the spec: `execute()` of the missing
`PorousFlowDoubletBreakthroughTime.C`: "if not yet latched and current value
≥ threshold_constant, record current time as the latch value and mark
latched; if already latched, value is unchanged". -/
def PorousFlowDoubletBreakthroughTime.execute {K : Type} [LinearOrderedField K]
    (s : PorousFlowDoubletBreakthroughTime K) (_pps_value _pps_time : K) :
    PorousFlowDoubletBreakthroughTime K :=
  if s.latched = false ∧ _pps_value ≥ s.threshold_constant then
    { s with latched_value := _pps_time, latched := true }
  else
    s

/-- Modelled from the spec: `getValue()` of the missing
`PorousFlowDoubletBreakthroughTime.C`: the exposed value is the latched value
(the sentinel before latching). -/
def PorousFlowDoubletBreakthroughTime.getValue {K : Type}
    (s : PorousFlowDoubletBreakthroughTime K) : K :=
  s.latched_value

/-- The driver loop over the latch: for each step, with upstream readings
`(value, time)`, the per-step reset and then `execute()`. -/
def PorousFlowDoubletBreakthroughTime.run {K : Type} [LinearOrderedField K]
    (s : PorousFlowDoubletBreakthroughTime K) (steps : List (K × K)) :
    PorousFlowDoubletBreakthroughTime K :=
  steps.foldl (fun s r => s.init_step.execute r.1 r.2) s

/-! ## Steady-state terminator -/

/-- Modelled from the spec: `PorousFlowSteadyStateTerminator.C` is missing
(only the header is available).  The members are the ones the header
declares besides the upstream readings `_pps_value` and `_pps_t`: the three
configuration values.  There is no other member: "No persistent state beyond
configuration". -/
structure PorousFlowSteadyStateTerminator (K : Type) where
  _steady_state_start_time : K
  _steady_state_end_time : K
  _steady_state_relative_diff : K

/-- Modelled from the spec: the decision of a step of the missing
`PorousFlowSteadyStateTerminator.C`: "termination is a pure function of the
last two upstream readings and elapsed time in-window".  When the current
time falls within the closed window `[window_start, window_end]`, the
relative difference of the previous and the current reading is computed, and
steady state is signalled when it is below the threshold.  The formula of
the relative difference is not given by the spec and is the parameter
`relDiff`. -/
def PorousFlowSteadyStateTerminator.steady {K : Type} [LinearOrderedField K]
    (relDiff : K → K → K) (s : PorousFlowSteadyStateTerminator K)
    (previous_value _pps_value _pps_t : K) : Bool :=
  decide (s._steady_state_start_time ≤ _pps_t ∧ _pps_t ≤ s._steady_state_end_time) &&
    decide (relDiff previous_value _pps_value < s._steady_state_relative_diff)

/-- Modelled from the spec: `getValue()` of the missing
`PorousFlowSteadyStateTerminator.C`: the flag as a scalar, `1` when steady
state is signalled and `0` otherwise. -/
def PorousFlowSteadyStateTerminator.getValue {K : Type} [LinearOrderedField K]
    (relDiff : K → K → K) (s : PorousFlowSteadyStateTerminator K)
    (previous_value _pps_value _pps_t : K) : K :=
  if s.steady relDiff previous_value _pps_value _pps_t then 1 else 0

/-- The kernel used in the concrete evaluations: unit mass flux, enthalpy
`h = 1` with `dh_dp = 1`, window `[0, 2]`, coupled pressure variable `0`. -/
def unitKernel : PorousFlowSquarePulsePointEnthalpySink ℚ :=
  { _mass_flux := 1
    _fp := { h_from_p_T := fun _ _ => 1, h_from_p_T_derivs := fun _ _ => (1, 1, 0) }
    _p := ⟨0, 0, 0⟩
    _start_time := 0
    _end_time := 2
    _p_var_num := 0 }

/-- The evaluation context used in the concrete evaluations: step of size
`dt` ending at `t`, unit test and shape functions. -/
def unitContext (t dt : ℚ) : QpContext ℚ :=
  { _t := t
    _dt := dt
    _i := 0
    _j := 0
    _qp := 0
    _test := fun _ _ => 1
    _phi := fun _ _ => 1
    _pressure := fun _ => 0
    _temperature := fun _ => 0 }

/-- The parameter block of the specification's failing example:
`start_time = 5`, `end_time = 3`. -/
def reversedWindowParameters : InputParameters ℚ :=
  { name := "sink"
    mass_flux := 1
    fp := unitKernel._fp
    pressure := 0
    point := ⟨0, 0, 0⟩
    start_time := some 5
    end_time := some 3 }

/-- A latch used in the concrete evaluations: threshold `1`, sentinel `-1`. -/
def exampleLatch : PorousFlowDoubletBreakthroughTime ℚ :=
  PorousFlowDoubletBreakthroughTime.construct 1 (-1)

section KernelTheorems

variable {K : Type} [LinearOrderedField K]

/-- The two copies of the six cases in the source compute the same factor. -/
theorem offDiagFactor_eq_residualFactor (t dt st en : K) :
    offDiagFactor t dt st en = residualFactor t dt st en := rfl

/-- Over one step, `factor * dt` is the distance travelled by the clamped
time. -/
theorem residualFactor_mul_dt (t dt st en : K) (hw : st ≤ en) (hdt : 0 < dt) :
    residualFactor t dt st en * dt = clampWindow st en t - clampWindow st en (t - dt) := by
  have hne : dt ≠ 0 := hdt.ne.symm
  unfold residualFactor clampWindow
  split_ifs with h1 h2 h3 h4
  · rcases h1 with h | h
    · rw [max_eq_right h.le, max_eq_right (by linarith), min_eq_left hw]
      simp
    · rw [max_eq_left (by linarith), max_eq_left (by linarith), min_eq_right h,
        min_eq_right (by linarith)]
      simp
  · push_neg at h1
    rw [div_mul_cancel₀ _ hne, max_eq_left h1.1, max_eq_right h2.le, min_eq_left h3,
      min_eq_left hw]
  · push_neg at h1 h3
    rw [div_mul_cancel₀ _ hne, max_eq_left h1.1, max_eq_right h2.le, min_eq_right h3.le,
      min_eq_left hw]
  · push_neg at h1 h2
    rw [max_eq_left h1.1, max_eq_left h2, min_eq_left h4, min_eq_left h1.2.le]
    ring
  · push_neg at h1 h2 h4
    rw [div_mul_cancel₀ _ hne, max_eq_left h1.1, max_eq_left h2, min_eq_right h4.le,
      min_eq_left h1.2.le]

/-- Over consecutive positive steps, the summed `factor * dt` telescopes to
the distance travelled by the clamped time. -/
theorem totalFactorTime_eq_clamp (st en : K) (hw : st ≤ en) (dts : List K) :
    ∀ t0 : K, (∀ d ∈ dts, 0 < d) →
      totalFactorTime st en t0 dts = clampWindow st en (t0 + dts.sum) - clampWindow st en t0 := by
  induction dts with
  | nil => intro t0 _; simp [totalFactorTime]
  | cons d ds ih =>
    intro t0 hpos
    have hd : 0 < d := hpos d (List.mem_cons_self d ds)
    have hds : ∀ x ∈ ds, 0 < x := fun x hx => hpos x (List.mem_cons_of_mem d hx)
    rw [totalFactorTime, ih (t0 + d) hds, residualFactor_mul_dt (t0 + d) d st en hw hd,
      List.sum_cons]
    rw [show t0 + d - d = t0 by ring, show t0 + d + ds.sum = t0 + (d + ds.sum) by ring]
    ring

/-- Claim C1: With `end_time > start_time` and `dt > 0`, the window factor of
`computeQpResidual`, and the one of `computeQpOffDiagJacobian`, lies in
`[0, 1]`. -/
theorem factor_mem_unit_interval (t dt st en : K) (hw : st < en) (hdt : 0 < dt) :
    (0 ≤ residualFactor t dt st en ∧ residualFactor t dt st en ≤ 1) ∧
      (0 ≤ offDiagFactor t dt st en ∧ offDiagFactor t dt st en ≤ 1) := by
  have key : 0 ≤ residualFactor t dt st en ∧ residualFactor t dt st en ≤ 1 := by
    unfold residualFactor
    split_ifs with h1 h2 h3 h4
    · exact ⟨le_refl 0, zero_le_one⟩
    · push_neg at h1
      exact ⟨div_nonneg (by linarith [h1.1]) hdt.le, (div_le_one hdt).2 (by linarith)⟩
    · push_neg at h1 h3
      exact ⟨div_nonneg (by linarith) hdt.le, (div_le_one hdt).2 (by linarith)⟩
    · exact ⟨zero_le_one, le_refl 1⟩
    · push_neg at h1 h2 h4
      exact ⟨div_nonneg (by linarith [h1.2]) hdt.le, (div_le_one hdt).2 (by linarith)⟩
  exact ⟨key, key⟩

/-- Concrete instance of C1: the default window and a step straddling its
start. -/
theorem factor_mem_unit_interval_witness :
    ((0 : ℚ) < 10 ^ 30 ∧ (0 : ℚ) < 1) ∧
      (0 ≤ residualFactor (1 / 2 : ℚ) 1 0 (10 ^ 30) ∧ residualFactor (1 / 2 : ℚ) 1 0 (10 ^ 30) ≤ 1) ∧
      (0 ≤ offDiagFactor (1 / 2 : ℚ) 1 0 (10 ^ 30) ∧ offDiagFactor (1 / 2 : ℚ) 1 0 (10 ^ 30) ≤ 1) :=
  ⟨⟨by norm_num, by norm_num⟩,
    factor_mem_unit_interval (1 / 2 : ℚ) 1 0 (10 ^ 30) (by norm_num) (by norm_num)⟩

/-- Claim C2, amended: in exact arithmetic, with `end_time > start_time` and
`dt > 0`, the six-case factor of
`computeQpResidual` is the fraction of the step `[t - dt, t]` that overlaps
the window: `max(0, min(t, end_time) - max(t - dt, start_time)) / dt`. -/
theorem factor_eq_overlap_fraction (t dt st en : K) (hw : st < en) (hdt : 0 < dt) :
    residualFactor t dt st en = max 0 (min t en - max (t - dt) st) / dt := by
  unfold residualFactor
  split_ifs with h1 h2 h3 h4
  · rcases h1 with h | h
    · rw [max_eq_left, zero_div]
      have := min_le_left t en
      have := le_max_right (t - dt) st
      linarith
    · rw [max_eq_left, zero_div]
      have := min_le_right t en
      have := le_max_left (t - dt) st
      linarith
  · push_neg at h1
    rw [min_eq_left h3, max_eq_right h2.le, max_eq_right (by linarith [h1.1])]
  · push_neg at h1 h3
    rw [min_eq_right h3.le, max_eq_right h2.le, max_eq_right (by linarith)]
  · push_neg at h1 h2
    rw [min_eq_left h4, max_eq_left h2, max_eq_right (by linarith)]
    rw [show t - (t - dt) = dt by ring, div_self hdt.ne.symm]
  · push_neg at h1 h2 h4
    rw [min_eq_right h4.le, max_eq_left h2, max_eq_right (by linarith [h1.2])]

/-- Concrete instances of C2: the two examples of the specification, both
with factor one half. -/
theorem factor_eq_overlap_fraction_witness :
    (residualFactor (1 / 2 : ℚ) 1 0 (10 ^ 30)
        = max 0 (min (1 / 2) (10 ^ 30) - max (1 / 2 - 1) 0) / 1 ∧
      residualFactor (1 / 2 : ℚ) 1 0 (10 ^ 30) = 1 / 2) ∧
    (residualFactor (6 : ℚ) 2 2 5 = max 0 (min 6 5 - max (6 - 2) 2) / 2 ∧
      residualFactor (6 : ℚ) 2 2 5 = 1 / 2) :=
  ⟨⟨factor_eq_overlap_fraction (1 / 2 : ℚ) 1 0 (10 ^ 30) (by norm_num) (by norm_num),
      by norm_num [residualFactor]⟩,
    ⟨factor_eq_overlap_fraction (6 : ℚ) 2 2 5 (by norm_num) (by norm_num),
      by norm_num [residualFactor]⟩⟩

/-- Claim C3: Without any precondition: when `t - dt >= end_time` or
`t < start_time`, both factors are exactly `0`, so `computeQpResidual` and
`computeQpOffDiagJacobian` (for every `jvar`) return exactly `0`, whatever
the enthalpy, mass flux, test and shape function values are. -/
theorem outside_window_zero (k : PorousFlowSquarePulsePointEnthalpySink K) (c : QpContext K)
    (h : c._t - c._dt ≥ k._end_time ∨ c._t < k._start_time) :
    residualFactor c._t c._dt k._start_time k._end_time = 0 ∧
      offDiagFactor c._t c._dt k._start_time k._end_time = 0 ∧
      computeQpResidual k c = 0 ∧
      ∀ jvar : Nat, computeQpOffDiagJacobian k c jvar = 0 := by
  have hc : c._t < k._start_time ∨ c._t - c._dt ≥ k._end_time := h.symm
  have h0 : residualFactor c._t c._dt k._start_time k._end_time = 0 := by
    unfold residualFactor
    rw [if_pos hc]
  have h0o : offDiagFactor c._t c._dt k._start_time k._end_time = 0 := by
    unfold offDiagFactor
    rw [if_pos hc]
  refine ⟨h0, h0o, ?_, ?_⟩
  · simp only [computeQpResidual, h0, mul_zero, zero_mul]
  · intro jvar
    simp only [computeQpOffDiagJacobian, h0o, mul_zero, zero_mul, ite_self]

/-- Concrete instance of C3: the step `[3, 4]` lies after the window
`[0, 2]`. -/
theorem outside_window_zero_witness :
    (unitContext 4 1)._t - (unitContext 4 1)._dt ≥ unitKernel._end_time ∧
      computeQpResidual unitKernel (unitContext 4 1) = 0 ∧
      computeQpOffDiagJacobian unitKernel (unitContext 4 1) 0 = 0 :=
  have h : (unitContext 4 1)._t - (unitContext 4 1)._dt ≥ unitKernel._end_time := by
    norm_num [unitContext, unitKernel]
  ⟨h, (outside_window_zero unitKernel (unitContext 4 1) (Or.inl h)).2.2.1,
    (outside_window_zero unitKernel (unitContext 4 1) (Or.inl h)).2.2.2 0⟩

/-- Claim C5: Construction fails (with the error naming the object and both
bounds) if and only if `end_time <= start_time`, equality included, and it
succeeds if and only if `end_time > start_time`, in which case the object
stores `start_time`, `end_time` and `mass_flux` unchanged.  The bounds are
the configured ones, or the declared defaults when not configured. -/
theorem construct_fails_iff (parameters : InputParameters K) :
    ((∃ e, construct parameters = Except.error e ∧ e.name = parameters.name ∧
          e.start_time = parameters.start_time.getD default_start_time ∧
          e.end_time = parameters.end_time.getD default_end_time)
        ↔ parameters.end_time.getD default_end_time
            ≤ parameters.start_time.getD default_start_time) ∧
      ((∃ k, construct parameters = Except.ok k ∧
          k._start_time = parameters.start_time.getD default_start_time ∧
          k._end_time = parameters.end_time.getD default_end_time ∧
          k._mass_flux = parameters.mass_flux)
        ↔ parameters.start_time.getD default_start_time
            < parameters.end_time.getD default_end_time) := by
  by_cases h : parameters.end_time.getD default_end_time
      ≤ parameters.start_time.getD default_start_time
  · constructor
    · refine ⟨fun _ => h, fun _ =>
        ⟨⟨parameters.name, parameters.start_time.getD default_start_time,
            parameters.end_time.getD default_end_time⟩, ?_, rfl, rfl, rfl⟩⟩
      simp only [construct, if_pos h]
    · refine ⟨?_, fun h2 => absurd h (not_le.2 h2)⟩
      rintro ⟨k, hk, -⟩
      simp only [construct, if_pos h] at hk
      cases hk
  · constructor
    · refine ⟨?_, fun h2 => absurd h2 h⟩
      rintro ⟨e, he, -⟩
      simp only [construct, if_neg h] at he
      cases he
    · refine ⟨fun _ => not_le.1 h, fun _ =>
        ⟨⟨parameters.mass_flux, parameters.fp, parameters.point,
            parameters.start_time.getD default_start_time,
            parameters.end_time.getD default_end_time, parameters.pressure⟩, ?_, rfl, rfl, rfl⟩⟩
      simp only [construct, if_neg h]

/-- Concrete instance of C5: `start_time = 5`, `end_time = 3` fails, and the
error carries both bounds. -/
theorem construct_fails_iff_witness :
    ∃ e, construct reversedWindowParameters = Except.error e ∧
      e.name = reversedWindowParameters.name ∧
      e.start_time = 5 ∧ e.end_time = 3 :=
  (construct_fails_iff reversedWindowParameters).1.2
    (by norm_num [reversedWindowParameters])

/-- Claim C6, evaluated on the code: `computeQpResidual` does not negate the
mass flux: with test function `1`, factor `1`, mass flux `1` and enthalpy
`1` it returns `+1`, where the negated product
`-(test * factor * mass_flux * h)` is `-1`. -/
theorem residual_not_negated :
    residualFactor (2 : ℚ) 1 0 2 = 1 ∧
      computeQpResidual unitKernel (unitContext 2 1) = 1 ∧
      computeQpResidual unitKernel (unitContext 2 1) ≠
        -((unitContext 2 1)._test 0 0 * residualFactor (2 : ℚ) 1 0 2 * unitKernel._mass_flux
            * unitKernel._fp.h_from_p_T 0 0) := by
  have hf : residualFactor (2 : ℚ) 1 0 2 = 1 := by norm_num [residualFactor]
  refine ⟨hf, ?_, ?_⟩
  · simp only [computeQpResidual, unitContext, unitKernel, hf]
    norm_num
  · simp only [computeQpResidual, unitContext, unitKernel, hf]
    norm_num

/-- Claim C7: `computeQpOffDiagJacobian jvar` is
`test * phi * factor * mass_flux * dh_dp` when `jvar` is the coupled pressure
variable, with `factor` the window factor of `computeQpResidual` for the same
times and window, and `0` for every other `jvar`; `computeQpJacobian` is
always `0`. -/
theorem offDiagJacobian_spec (k : PorousFlowSquarePulsePointEnthalpySink K) (c : QpContext K)
    (jvar : Nat) :
    computeQpOffDiagJacobian k c jvar =
        (if jvar = k._p_var_num then
          c._test c._i c._qp * c._phi c._j c._qp
            * residualFactor c._t c._dt k._start_time k._end_time * k._mass_flux
            * (k._fp.h_from_p_T_derivs (c._pressure c._qp) (c._temperature c._qp)).2.1
        else 0) ∧
      computeQpJacobian k c = 0 := by
  refine ⟨?_, rfl⟩
  simp only [computeQpOffDiagJacobian, offDiagFactor_eq_residualFactor]

/-- Claim C10, amended: in exact arithmetic, for `end_time > start_time` and
consecutive steps of positive
sizes `dts` from `t0 <= start_time` reaching `t0 + sum dts >= end_time`, the
sum over the steps of `factor * dt` is `end_time - start_time`, however the
steps are chosen. -/
theorem total_factor_time_eq_window (st en t0 : K) (dts : List K) (hw : st < en)
    (hpos : ∀ d ∈ dts, 0 < d) (h0 : t0 ≤ st) (hn : en ≤ t0 + dts.sum) :
    totalFactorTime st en t0 dts = en - st := by
  rw [totalFactorTime_eq_clamp st en hw.le dts t0 hpos]
  unfold clampWindow
  rw [max_eq_right h0, min_eq_left hw.le, max_eq_left (by linarith), min_eq_right hn]

/-- Concrete instance of C10: window `[1/2, 4]`, steps `1, 2, 3` from time
`0` and the same with the middle step split into `1/2 + 3/2`; both sum to
`7/2`. -/
theorem total_factor_time_eq_window_witness :
    totalFactorTime (1 / 2 : ℚ) 4 0 [1, 2, 3] = 4 - 1 / 2 ∧
      totalFactorTime (1 / 2 : ℚ) 4 0 [1, 1 / 2, 3 / 2, 3] = 4 - 1 / 2 :=
  ⟨total_factor_time_eq_window (1 / 2 : ℚ) 4 0 [1, 2, 3] (by norm_num)
      (by intro d hd; simp at hd; rcases hd with h | h | h <;> rw [h] <;> norm_num)
      (by norm_num) (by norm_num),
    total_factor_time_eq_window (1 / 2 : ℚ) 4 0 [1, 1 / 2, 3 / 2, 3] (by norm_num)
      (by intro d hd; simp at hd; rcases hd with h | h | h | h <;> rw [h] <;> norm_num)
      (by norm_num) (by norm_num)⟩

/-! ## Theorems: the window factor in binary64 arithmetic -/

/-- The double `2 ^ e` stands for the real number `2 ^ e`. -/
theorem Binary64.toRat_pow2 (e : Int) (h : -1074 ≤ e) :
    Binary64.toRat (Binary64.pow2 e) = (2 : ℚ) ^ e := by
  unfold Binary64.toRat Binary64.pow2
  have hn : ((e + 1074).toNat : Int) = e + 1074 := Int.toNat_of_nonneg (by omega)
  have h2 : ((2 : ℚ) ^ (e + 1074).toNat) = (2 : ℚ) ^ (e + 1074) := by
    rw [← zpow_natCast, hn]
  push_cast
  rw [h2, zpow_add₀ (two_ne_zero), div_eq_iff (by positivity)]
  norm_cast

/-- Multiples of a double stand for the multiples of its real number. -/
theorem Binary64.toRat_mul_left (m x : Int) :
    Binary64.toRat (m * x) = m * Binary64.toRat x := by
  unfold Binary64.toRat
  push_cast
  ring

/-- The rounding of the model agrees with the binary64 values of `1/3` and
of `0.1`: `0x15555555555555 * 2 ^ (-54)` and `0x1999999999999a * 2 ^ (-56)`. -/
theorem Binary64.div_examples :
    Binary64.div (Binary64.pow2 0) (3 * Binary64.pow2 0)
        = some (0x15555555555555 * Binary64.pow2 (-54)) ∧
      Binary64.div (Binary64.pow2 0) (10 * Binary64.pow2 0)
        = some (0x1999999999999a * Binary64.pow2 (-56)) := by
  decide!

/-- Claim C2, as stated, fails in binary64 arithmetic: with
`t = start_time = 1`, `dt = 2 ^ (-60)` and `end_time = 2` the difference
`_t - _dt` rounds to `1`, so the test of line 77 is false and the factor is
`1`, while the overlap fraction
`max(0, min(t, end_time) - max(t - dt, start_time)) / dt` is `0`. -/
theorem factor_overlap_fails_binary64 :
    (Binary64.toRat (Binary64.pow2 0) < Binary64.toRat (Binary64.pow2 1) ∧
        0 < Binary64.toRat (Binary64.pow2 (-60))) ∧
      Binary64.sub (Binary64.pow2 0) (Binary64.pow2 (-60)) = some (Binary64.pow2 0) ∧
      residualFactorBinary64 (Binary64.pow2 0) (Binary64.pow2 (-60)) (Binary64.pow2 0)
          (Binary64.pow2 1) = some (Binary64.pow2 0) ∧
      Binary64.toRat (Binary64.pow2 0) = 1 ∧
      max 0 (min (Binary64.toRat (Binary64.pow2 0)) (Binary64.toRat (Binary64.pow2 1))
            - max (Binary64.toRat (Binary64.pow2 0) - Binary64.toRat (Binary64.pow2 (-60)))
                (Binary64.toRat (Binary64.pow2 0)))
          / Binary64.toRat (Binary64.pow2 (-60)) = 0 := by
  rw [Binary64.toRat_pow2 0 (by norm_num), Binary64.toRat_pow2 1 (by norm_num),
    Binary64.toRat_pow2 (-60) (by norm_num)]
  refine ⟨⟨by norm_num, by positivity⟩, by decide!, by decide!, by norm_num, ?_⟩
  norm_num

/-- Claim C10, as stated, fails in binary64 arithmetic: window
`[0.25, 0.75]`, steps of sizes `0.5` and `2 ^ 53` from time `0`.  The times
are `0 < 0.5 < 2 ^ 53` (the sum `0.5 + 2 ^ 53` rounds to `2 ^ 53`), so in
the second step `_t - _dt` is `0`, not the previous time `0.5`: the first
step contributes `0.25`, the second the whole window `0.5`, and the sum is
`0.75`, not `end_time - start_time = 0.5`. -/
theorem total_factor_time_fails_binary64 :
    (Binary64.toRat (Binary64.pow2 (-2)) < Binary64.toRat (3 * Binary64.pow2 (-2)) ∧
        (0 < Binary64.pow2 (-1) ∧ 0 < Binary64.pow2 53) ∧
        (0 : Int) ≤ Binary64.pow2 (-2) ∧ 3 * Binary64.pow2 (-2) ≤ Binary64.pow2 53) ∧
      stepTimesBinary64 0 [Binary64.pow2 (-1), Binary64.pow2 53]
        = some [0, Binary64.pow2 (-1), Binary64.pow2 53] ∧
      Binary64.isFinite (3 * Binary64.pow2 (-2)) = true ∧
      totalFactorTimeBinary64 (Binary64.pow2 (-2)) (3 * Binary64.pow2 (-2)) 0
          [Binary64.pow2 (-1), Binary64.pow2 53] = some (3 * Binary64.pow2 (-2)) ∧
      Binary64.toRat (3 * Binary64.pow2 (-2))
        ≠ Binary64.toRat (3 * Binary64.pow2 (-2)) - Binary64.toRat (Binary64.pow2 (-2)) := by
  rw [Binary64.toRat_mul_left, Binary64.toRat_pow2 (-2) (by norm_num)]
  refine ⟨⟨by norm_num, by decide!, by decide!, by decide!⟩, by decide!, by decide!,
    by decide!, by norm_num⟩

end KernelTheorems

/-! ## Theorems: the diagnostics -/

section DiagnosticTheorems

variable {K : Type} [LinearOrderedField K]

/-- A latched state is a fixed point of a step. -/
theorem latch_step_of_latched (s : PorousFlowDoubletBreakthroughTime K) (h : s.latched = true)
    (v t : K) : s.init_step.execute v t = s := by
  simp [PorousFlowDoubletBreakthroughTime.execute, PorousFlowDoubletBreakthroughTime.init_step, h]

/-- A latched state is a fixed point of any run. -/
theorem latch_run_of_latched (steps : List (K × K)) :
    ∀ s : PorousFlowDoubletBreakthroughTime K, s.latched = true → s.run steps = s := by
  induction steps with
  | nil => intro s _; rfl
  | cons r rs ih =>
    intro s h
    have hstep := latch_step_of_latched s h r.1 r.2
    show PorousFlowDoubletBreakthroughTime.run (s.init_step.execute r.1 r.2) rs = s
    rw [hstep]
    exact ih s h

/-- Claim C8: Once a step of `execute()` has left the latch set, every later
sequence of steps, with any upstream values and times, leaves the latched
value, and with it `getValue()`, unchanged; when that step is the one that
set the latch, the frozen value is the time of that step. -/
theorem latched_value_frozen (s : PorousFlowDoubletBreakthroughTime K) (v t : K)
    (hset : (s.init_step.execute v t).latched = true) (later : List (K × K)) :
    ((s.init_step.execute v t).run later).latched_value
        = (s.init_step.execute v t).latched_value ∧
      ((s.init_step.execute v t).run later).getValue = (s.init_step.execute v t).getValue ∧
      (s.latched = false → ((s.init_step.execute v t).run later).getValue = t) := by
  rw [latch_run_of_latched later _ hset]
  refine ⟨rfl, rfl, fun hnot => ?_⟩
  unfold PorousFlowDoubletBreakthroughTime.execute PorousFlowDoubletBreakthroughTime.init_step
    at hset ⊢
  by_cases hv : v ≥ s.threshold_constant
  · simp [hnot, hv, PorousFlowDoubletBreakthroughTime.getValue]
  · simp [hnot, hv] at hset

/-- Concrete instance of C8: the latch with threshold `1` is set at time `5`
by the reading `2`; the later readings `0` at time `6` and `3` at time `7`
leave the exposed value at `5`. -/
theorem latched_value_frozen_witness :
    (exampleLatch.init_step.execute 2 5).latched = true ∧
      ((exampleLatch.init_step.execute 2 5).run [(0, 6), (3, 7)]).getValue = 5 :=
  have h : (exampleLatch.init_step.execute 2 5).latched = true := by
    simp [exampleLatch, PorousFlowDoubletBreakthroughTime.construct,
      PorousFlowDoubletBreakthroughTime.execute, PorousFlowDoubletBreakthroughTime.init_step]
  ⟨h, (latched_value_frozen exampleLatch 2 5 h [(0, 6), (3, 7)]).2.2 rfl⟩

end DiagnosticTheorems

end Falcon
